import Mathlib

/-!
Verification of the Yokogawa WT3000 protocol driver (`include/WT3000.hpp`).

The repository ships the interface header: the GPIB command vocabulary
(string constants), the `Interface` class with its two data members
(`usb`, `loglevel`) and the inline bodies of `setUSBInterface`,
`getLogLevel` and `setLogLevel`.  The bodies of the remaining methods
(`connect`, the configuration setters, `getNumericValues`,
`getNumericValuesAsFloats`) are declared but not part of the sources, so
those operations are modelled from the design document (command grammar,
write-through configuration state, bounded receive, numeric decode) and
marked as such in their doc comments.
-/

namespace Yokogawa.WT3000

namespace GPIB

def ClearStatus : String := "*CLS"

def Identify : String := "*IDN?"

namespace Communicate

def Group : String := ":COMMunicate"

def Header : String := ":HEADer"

def Overlap : String := ":OVERlap"

def Remote : String := ":REMote"

def Verbose : String := ":VERBose"

end Communicate

namespace Input

def Group : String := ":INPut"

def Module : String := ":MODUle"

def Voltage : String := ":VOLTage"

def Current : String := ":CURRent"

end Input

namespace Numeric

def Group : String := ":NUMeric"

namespace Format

def Group : String := ":FORMat"

def ASCII : String := "ASCii"

def Float : String := "FLOat"

/-- The typed formats enumeration of the header (`enumFormats`): a single
value `FORMAT_FLOAT`. -/
inductive enumFormats
  | FORMAT_FLOAT
  deriving DecidableEq

end Format

def Value : String := ":VALue"

end Numeric

namespace Status

def Group : String := ":STATus"

def ExtendedEventStatusEnable : String := ":EESE"

def Filter : String := ":FILTer"

namespace Transition

def Rise : String := "RISE"

def Fall : String := "FALL"

def Both : String := "BOTH"

def Never : String := "NEVER"

end Transition

end Status

end GPIB

instance instDecEqExcept {ε α : Type} [DecidableEq ε] [DecidableEq α] :
    DecidableEq (Except ε α) := fun x y =>
  match x, y with
  | .ok a, .ok b =>
      if h : a = b then .isTrue (by rw [h]) else .isFalse (by simp [h])
  | .ok _, .error _ => .isFalse (fun h => Except.noConfusion h)
  | .error _, .ok _ => .isFalse (fun h => Except.noConfusion h)
  | .error e, .error f =>
      if h : e = f then .isTrue (by rw [h]) else .isFalse (by simp [h])

/-- The error taxonomy of the design document (section 7). -/
inductive ProtocolError
  | TransportError
  | Truncated
  | MalformedCommand
  | InvalidArgument
  | MalformedNumericResponse
  deriving DecidableEq

/-- Modelled from the spec: a Command record for the grammar builder
(section 3): group, optional header, optional argument, query flag. -/
structure Command where
  group : String
  header : Option String
  argument : Option String
  isQuery : Bool

/-- Modelled from the spec: the Command Grammar Builder (section 4.1).
A query string is group ++ header ++ "?"; a set string is
group ++ header ++ " " ++ argument; a query carrying a non-empty
argument fails with `MalformedCommand` before anything is produced. -/
def buildCommand (c : Command) : Except ProtocolError String :=
  if c.isQuery then
    match c.argument with
    | some a => if a = "" then .ok (c.group ++ c.header.getD "" ++ "?")
                else .error .MalformedCommand
    | none => .ok (c.group ++ c.header.getD "" ++ "?")
  else .ok (c.group ++ c.header.getD "" ++ " " ++ c.argument.getD "")

/-- The fixed (group, header) vocabulary of the header file, used for
query construction. -/
def queryVocabulary : List (String × String) :=
  [(GPIB.Communicate.Group, GPIB.Communicate.Header),
   (GPIB.Communicate.Group, GPIB.Communicate.Overlap),
   (GPIB.Communicate.Group, GPIB.Communicate.Remote),
   (GPIB.Communicate.Group, GPIB.Communicate.Verbose),
   (GPIB.Input.Group, GPIB.Input.Module),
   (GPIB.Input.Group, GPIB.Input.Voltage),
   (GPIB.Input.Group, GPIB.Input.Current),
   (GPIB.Numeric.Group, GPIB.Numeric.Format.Group),
   (GPIB.Numeric.Group, GPIB.Numeric.Value),
   (GPIB.Status.Group, GPIB.Status.ExtendedEventStatusEnable),
   (GPIB.Status.Group, GPIB.Status.Filter)]

/-- The fixed (group, header, argument) vocabulary of the header file,
used for set-command construction: boolean flags take the `0`/`1`
tokens, the status filter takes the transition tokens, the numeric
format takes `ASCii`/`FLOat`. -/
def setVocabulary : List (String × String × String) :=
  [(GPIB.Communicate.Group, GPIB.Communicate.Header, "0"),
   (GPIB.Communicate.Group, GPIB.Communicate.Header, "1"),
   (GPIB.Communicate.Group, GPIB.Communicate.Overlap, "0"),
   (GPIB.Communicate.Group, GPIB.Communicate.Overlap, "1"),
   (GPIB.Communicate.Group, GPIB.Communicate.Remote, "0"),
   (GPIB.Communicate.Group, GPIB.Communicate.Remote, "1"),
   (GPIB.Communicate.Group, GPIB.Communicate.Verbose, "0"),
   (GPIB.Communicate.Group, GPIB.Communicate.Verbose, "1"),
   (GPIB.Status.Group, GPIB.Status.ExtendedEventStatusEnable, "0"),
   (GPIB.Status.Group, GPIB.Status.ExtendedEventStatusEnable, "1"),
   (GPIB.Status.Group, GPIB.Status.Filter, GPIB.Status.Transition.Rise),
   (GPIB.Status.Group, GPIB.Status.Filter, GPIB.Status.Transition.Fall),
   (GPIB.Status.Group, GPIB.Status.Filter, GPIB.Status.Transition.Both),
   (GPIB.Status.Group, GPIB.Status.Filter, GPIB.Status.Transition.Never),
   (GPIB.Numeric.Group, GPIB.Numeric.Format.Group, GPIB.Numeric.Format.ASCII),
   (GPIB.Numeric.Group, GPIB.Numeric.Format.Group, GPIB.Numeric.Format.Float)]

/-- Split a character list on the comma separator; always yields at
least one (possibly empty) field. -/
def splitOnComma : List Char → List (List Char)
  | [] => [[]]
  | c :: cs =>
      let r := splitOnComma cs
      if c = ',' then [] :: r
      else
        match r with
        | [] => [[c]]
        | f :: rest => (c :: f) :: rest

/-- Accumulate decimal digits into a natural number; fails on a
non-digit character. -/
def natOfDigitsAux : List Char → Nat → Option Nat
  | [], acc => some acc
  | c :: cs, acc =>
      if c.isDigit then natOfDigitsAux cs (10 * acc + (c.toNat - 48))
      else none

/-- Parse a non-empty run of decimal digits. -/
def natOfDigits : List Char → Option Nat
  | [] => none
  | cs => natOfDigitsAux cs 0

/-- Split a character list on the dot separator; always yields at least
one (possibly empty) part. -/
def splitOnDot : List Char → List (List Char)
  | [] => [[]]
  | c :: cs =>
      let r := splitOnDot cs
      if c = '.' then [] :: r
      else
        match r with
        | [] => [[c]]
        | f :: rest => (c :: f) :: rest

/-- Modelled from the spec: parse an unsigned decimal field (digits with
an optional fractional part) into a scaled integer: the pair `(m, k)`
denotes the value `m / 10 ^ k`. -/
def parseUnsignedScaled (cs : List Char) : Option (Int × Nat) :=
  match splitOnDot cs with
  | [ip] => (natOfDigits ip).map (fun n => ((n : Int), 0))
  | [ip, fp] =>
      match natOfDigits ip, natOfDigits fp with
      | some i, some f => some (((i * 10 ^ fp.length + f : Nat) : Int), fp.length)
      | _, _ => none
  | _ => none

/-- Modelled from the spec: parse one comma-separated field as a signed
decimal number in scaled-integer form. -/
def parseFieldScaled (cs : List Char) : Option (Int × Nat) :=
  match cs with
  | '-' :: rest => (parseUnsignedScaled rest).map (fun p => (-p.1, p.2))
  | '+' :: rest => parseUnsignedScaled rest
  | _ => parseUnsignedScaled cs

/-- The rational value denoted by a scaled integer `(m, k)`:
`m / 10 ^ k`. -/
def toRat (p : Int × Nat) : ℚ := (p.1 : ℚ) / (10 : ℚ) ^ p.2

/-- Modelled from the spec: the numeric decode of the Response Decoder
(section 4.3, backing `getNumericValuesAsFloats`): split the response on
commas, parse every field as a number, keep the order; fail with
`MalformedNumericResponse` if any field does not parse (in particular on
an empty response, where the single empty field fails). -/
def decodeNumericResponse (s : String) : Except ProtocolError (List ℚ) :=
  match (splitOnComma s.data).mapM parseFieldScaled with
  | some vs => .ok (vs.map toRat)
  | none => .error .MalformedNumericResponse


/-- Modelled from the spec: the Device Configuration State (section 3):
the in-memory record of the flags the instrument has been told to adopt.
The status filter maps a filter number to the transition-condition token
stored for it; the numeric format is unset until configured. -/
structure ConfigurationState where
  remote : Bool
  overlap : Bool
  verbose : Bool
  header : Bool
  extendedEventStatusEnable : Bool
  statusFilter : String → Option String
  numericFormat : Option String

/-- The power-on default configuration: all flags clear, no status
filter stored, numeric format unset. -/
def ConfigurationState.init : ConfigurationState :=
  ⟨false, false, false, false, false, fun _ => none, none⟩

/-- The outcome of one facade operation: the configuration state after
the call, the commands whose transmission was attempted (in order), and
the result signalled to the caller. -/
structure OpResult (α : Type) where
  state : ConfigurationState
  sent : List String
  result : Except ProtocolError α

/-- Modelled from the spec: the write-through setter discipline
(section 4.2): send the command, and only on a successful send update
the in-memory state; on transport failure leave the state unchanged and
signal `TransportError`. -/
def transmitSet (send : String → Bool) (st : ConfigurationState) (cmd : String)
    (update : ConfigurationState → ConfigurationState) : OpResult Unit :=
  if send cmd then ⟨update st, [cmd], .ok ()⟩
  else ⟨st, [cmd], .error .TransportError⟩

/-- Boolean command arguments as instrument tokens. Modelled from the
spec: the token set is a fixed per-command mapping; the claims do not
depend on which token set a family uses, `1`/`0` is used throughout. -/
def boolArg (b : Bool) : String := if b then "1" else "0"

def setRemoteCmd (b : Bool) : String :=
  GPIB.Communicate.Group ++ GPIB.Communicate.Remote ++ " " ++ boolArg b

def setOverlapCmd (b : Bool) : String :=
  GPIB.Communicate.Group ++ GPIB.Communicate.Overlap ++ " " ++ boolArg b

def setVerboseCmd (b : Bool) : String :=
  GPIB.Communicate.Group ++ GPIB.Communicate.Verbose ++ " " ++ boolArg b

def setHeaderCmd (b : Bool) : String :=
  GPIB.Communicate.Group ++ GPIB.Communicate.Header ++ " " ++ boolArg b

def setExtendedEventStatusEnableCmd (b : Bool) : String :=
  GPIB.Status.Group ++ GPIB.Status.ExtendedEventStatusEnable ++ " " ++ boolArg b

def setStatusFilterCmd (number condition : String) : String :=
  GPIB.Status.Group ++ GPIB.Status.Filter ++ number ++ " " ++ condition

def setNumericFormatCmd (t : String) : String :=
  GPIB.Numeric.Group ++ GPIB.Numeric.Format.Group ++ " " ++ t

def numericValuesQuery : String :=
  GPIB.Numeric.Group ++ GPIB.Numeric.Value ++ "?"

/-- Modelled from the spec: `Interface::setRemote`. -/
def setRemote (send : String → Bool) (st : ConfigurationState) (b : Bool) :
    OpResult Unit :=
  transmitSet send st (setRemoteCmd b) (fun s => { s with remote := b })

/-- Modelled from the spec: `Interface::setOverlap`. -/
def setOverlap (send : String → Bool) (st : ConfigurationState) (b : Bool) :
    OpResult Unit :=
  transmitSet send st (setOverlapCmd b) (fun s => { s with overlap := b })

/-- Modelled from the spec: `Interface::setVerbose`. -/
def setVerbose (send : String → Bool) (st : ConfigurationState) (b : Bool) :
    OpResult Unit :=
  transmitSet send st (setVerboseCmd b) (fun s => { s with verbose := b })

/-- Modelled from the spec: `Interface::setHeader`. -/
def setHeader (send : String → Bool) (st : ConfigurationState) (b : Bool) :
    OpResult Unit :=
  transmitSet send st (setHeaderCmd b) (fun s => { s with header := b })

/-- Modelled from the spec: `Interface::setExtendedEventStatusEnable`. -/
def setExtendedEventStatusEnable (send : String → Bool) (st : ConfigurationState)
    (b : Bool) : OpResult Unit :=
  transmitSet send st (setExtendedEventStatusEnableCmd b)
    (fun s => { s with extendedEventStatusEnable := b })

/-- Whether a condition string is one of the four transition tokens of
`GPIB::Status::Transition`. -/
def isValidTransition (c : String) : Bool :=
  c = GPIB.Status.Transition.Rise || c = GPIB.Status.Transition.Fall ||
  c = GPIB.Status.Transition.Both || c = GPIB.Status.Transition.Never

/-- Modelled from the spec: `Interface::setStatusFilter` (section 4.2):
validate the condition against the four transition tokens; on any other
value fail with `InvalidArgument` before any transmission is attempted
and leave the state unchanged; on a valid condition follow the
write-through discipline, storing the token for the given number. -/
def setStatusFilter (send : String → Bool) (st : ConfigurationState)
    (number condition : String) : OpResult Unit :=
  if isValidTransition condition then
    transmitSet send st (setStatusFilterCmd number condition)
      (fun s => { s with statusFilter :=
        fun m => if m = number then some condition else s.statusFilter m })
  else ⟨st, [], .error .InvalidArgument⟩

/-- Modelled from the spec: the string overload of
`Interface::setNumericFormat`: no validation, the caller's text is
transmitted verbatim as the argument. -/
def setNumericFormatString (send : String → Bool) (st : ConfigurationState)
    (t : String) : OpResult Unit :=
  transmitSet send st (setNumericFormatCmd t)
    (fun s => { s with numericFormat := some t })

/-- Modelled from the spec: the token the enum overload transmits for a
typed format value. -/
def formatToken : GPIB.Numeric.Format.enumFormats → String
  | .FORMAT_FLOAT => GPIB.Numeric.Format.Float

/-- Modelled from the spec: the enum overload of
`Interface::setNumericFormat`, mapping the typed value to its token and
delegating to the string path. -/
def setNumericFormatEnum (send : String → Bool) (st : ConfigurationState)
    (f : GPIB.Numeric.Format.enumFormats) : OpResult Unit :=
  setNumericFormatString send st (formatToken f)

/-- Modelled from the spec: `Interface::clearStatus`: sends `*CLS`,
leaves the configuration state alone, propagates transport failure. -/
def clearStatus (send : String → Bool) (st : ConfigurationState) : OpResult Unit :=
  if send GPIB.ClearStatus then ⟨st, [GPIB.ClearStatus], .ok ()⟩
  else ⟨st, [GPIB.ClearStatus], .error .TransportError⟩

/-- Modelled from the spec: `Interface::connect` (section 4.5): issues
`clearStatus()` and then `setRemote(true)`, stopping at the first
failure. -/
def connect (send : String → Bool) (st : ConfigurationState) : OpResult Unit :=
  let r := clearStatus send st
  match r.result with
  | .error e => ⟨r.state, r.sent, .error e⟩
  | .ok _ =>
      let r2 := setRemote send r.state true
      ⟨r2.state, r.sent ++ r2.sent, r2.result⟩

/-- Two consecutive `connect()` calls, the second starting from the
state the first left behind, with the transmission traces appended. -/
def connectTwice (send : String → Bool) (st : ConfigurationState) : OpResult Unit :=
  let r := connect send st
  match r.result with
  | .error e => ⟨r.state, r.sent, .error e⟩
  | .ok _ =>
      let r2 := connect send r.state
      ⟨r2.state, r.sent ++ r2.sent, r2.result⟩

/-- Modelled from the spec: what the transport reports for one bounded
receive (section 6): a success flag, the bytes that fit the buffer
(kept as their ASCII text), and whether more data was available than
the buffer could hold. -/
structure ReceiveResult where
  success : Bool
  data : String
  truncated : Bool

/-- Modelled from the spec: `Interface::getNumericValues`
(sections 4.4 and 4.5): send the numeric-value query, perform the
bounded receive; a transfer error on either side is `TransportError`, a
receive that had to drop available data is `Truncated`, otherwise the
received bytes are returned. -/
def getNumericValues (send : String → Bool) (recv : ReceiveResult) :
    Except ProtocolError String :=
  if send numericValuesQuery then
    if recv.success then
      if recv.truncated then .error .Truncated
      else .ok recv.data
    else .error .TransportError
  else .error .TransportError

/-- Modelled from the spec: `Interface::getNumericValuesAsFloats`
(section 4.5): compose the bounded fetch with the numeric decode,
swallowing any failure into an empty sequence. -/
def getNumericValuesAsFloats (send : String → Bool) (recv : ReceiveResult) :
    List ℚ :=
  match getNumericValues send recv with
  | .error _ => []
  | .ok raw =>
      match decodeNumericResponse raw with
      | .error _ => []
      | .ok vs => vs

/-- The logging severity levels the interface depends on (Debug through
Error, per the logging collaborator contract). -/
inductive LogLevel
  | Debug
  | Info
  | Warning
  | Error
  deriving DecidableEq

/-- The `Interface` class data members: the assigned USB interface
pointer (`NULL` initially, modelled as `Option`) and the stored log
level, which the member initializers set to `Debug`. -/
structure Interface where
  usb : Option Nat
  loglevel : LogLevel

/-- A freshly constructed `Interface`: `usb = NULL`,
`loglevel = LogLevel::Debug`, per the member initializers. -/
def Interface.init : Interface := ⟨none, LogLevel.Debug⟩

/-- `Interface::setUSBInterface`: assign the USB interface pointer. -/
def Interface.setUSBInterface (i : Interface) (intf : Option Nat) : Interface :=
  { i with usb := intf }

/-- `Interface::getLogLevel`: return the stored log level. -/
def Interface.getLogLevel (i : Interface) : LogLevel := i.loglevel

/-- `Interface::setLogLevel`: store the given log level. -/
def Interface.setLogLevel (i : Interface) (level : LogLevel) : Interface :=
  { i with loglevel := level }

/-! Helper lemmas about the write-through discipline, shared by the
setter theorems. -/

theorem transmitSet_fail {send : String → Bool} {cmd : String}
    (st : ConfigurationState) (u : ConfigurationState → ConfigurationState)
    (h : send cmd = false) :
    (transmitSet send st cmd u).state = st ∧
    (transmitSet send st cmd u).result = .error .TransportError := by
  simp [transmitSet, h]

theorem transmitSet_ok {send : String → Bool} {cmd : String}
    (st : ConfigurationState) (u : ConfigurationState → ConfigurationState)
    (h : send cmd = true) :
    transmitSet send st cmd u = ⟨u st, [cmd], .ok ()⟩ := by
  simp [transmitSet, h]

theorem transmitSet_sent (send : String → Bool) (st : ConfigurationState)
    (cmd : String) (u : ConfigurationState → ConfigurationState) :
    (transmitSet send st cmd u).sent = [cmd] := by
  unfold transmitSet
  split <;> rfl

/-- C4: numeric decode splits on commas and parses each field in order:
`"1.250,-2.0,0.0"` yields exactly `[1.25, -2.0, 0.0]`; `"1.25,abc"`
fails with `MalformedNumericResponse`; the empty string fails as well
(one value was expected, none parses). -/
theorem decodeNumericResponse_spec :
    decodeNumericResponse "1.250,-2.0,0.0" = .ok [(5 : ℚ)/4, -2, 0] ∧
    decodeNumericResponse "1.25,abc" = .error .MalformedNumericResponse ∧
    decodeNumericResponse "" = .error .MalformedNumericResponse := by
  refine ⟨?_, ?_, ?_⟩
  · have h : (splitOnComma "1.250,-2.0,0.0".data).mapM parseFieldScaled =
        some [(1250, 3), (-20, 1), (0, 1)] := by decide
    simp only [decodeNumericResponse, h]
    norm_num [toRat]
  · have h : (splitOnComma "1.25,abc".data).mapM parseFieldScaled = none := by
      decide
    simp only [decodeNumericResponse, h]
  · have h : (splitOnComma "".data).mapM parseFieldScaled = none := by decide
    simp only [decodeNumericResponse, h]

/-- C5: for every (group, header) pair of the fixed vocabulary, the
query string the builder produces is exactly `group ++ header ++ "?"`:
it ends in the query mark, not in a space, and carries no argument. -/
theorem query_grammar (p : String × String) (hp : p ∈ queryVocabulary) :
    buildCommand ⟨p.1, some p.2, none, true⟩ = .ok (p.1 ++ p.2 ++ "?") ∧
    (p.1 ++ p.2 ++ "?").data.getLast? = some '?' ∧
    (p.1 ++ p.2 ++ "?").data.getLast? ≠ some ' ' := by
  fin_cases hp <;> decide

theorem query_grammar_witness :
    buildCommand ⟨GPIB.Communicate.Group, some GPIB.Communicate.Remote, none, true⟩ =
      .ok (GPIB.Communicate.Group ++ GPIB.Communicate.Remote ++ "?") ∧
    (GPIB.Communicate.Group ++ GPIB.Communicate.Remote ++ "?").data.getLast? =
      some '?' ∧
    (GPIB.Communicate.Group ++ GPIB.Communicate.Remote ++ "?").data.getLast? ≠
      some ' ' :=
  query_grammar (GPIB.Communicate.Group, GPIB.Communicate.Remote) (by decide)

/-- C6: for every (group, header, argument) triple of the fixed
vocabulary, the set string the builder produces is exactly
`group ++ header ++ " " ++ argument`, with exactly one space in it,
the one separating the argument. -/
theorem set_grammar (t : String × String × String) (ht : t ∈ setVocabulary) :
    buildCommand ⟨t.1, some t.2.1, some t.2.2, false⟩ =
      .ok (t.1 ++ t.2.1 ++ " " ++ t.2.2) ∧
    (t.1 ++ t.2.1 ++ " " ++ t.2.2).data.count ' ' = 1 := by
  fin_cases ht <;> decide

theorem set_grammar_witness :
    buildCommand ⟨GPIB.Communicate.Group, some GPIB.Communicate.Remote,
        some "1", false⟩ =
      .ok (GPIB.Communicate.Group ++ GPIB.Communicate.Remote ++ " " ++ "1") ∧
    (GPIB.Communicate.Group ++ GPIB.Communicate.Remote ++ " " ++ "1").data.count
      ' ' = 1 :=
  set_grammar (GPIB.Communicate.Group, GPIB.Communicate.Remote, "1") (by decide)

/-- C7: `setNumericFormat` has two overloads: the enum overload maps
the single enum value `FORMAT_FLOAT` exactly to the token `FLOat` in
the transmitted command, while the string overload performs no
validation and transmits the caller's text verbatim as the argument. -/
theorem setNumericFormat_overloads (send : String → Bool)
    (st : ConfigurationState) (t : String)
    (f : GPIB.Numeric.Format.enumFormats) :
    f = .FORMAT_FLOAT ∧
    formatToken f = "FLOat" ∧
    (setNumericFormatEnum send st f).sent =
      [GPIB.Numeric.Group ++ GPIB.Numeric.Format.Group ++ " " ++ "FLOat"] ∧
    (setNumericFormatString send st t).sent =
      [GPIB.Numeric.Group ++ GPIB.Numeric.Format.Group ++ " " ++ t] := by
  cases f
  exact ⟨rfl, rfl, transmitSet_sent .., transmitSet_sent ..⟩

/-- C3: when the send went through and the transport receive reports
that more data was available than the buffer could hold,
`getNumericValues` reports `Truncated`, an outcome distinct from a
clean transport failure and from success with partial data. -/
theorem getNumericValues_truncated (send : String → Bool)
    (recv : ReceiveResult) (hs : send numericValuesQuery = true)
    (h1 : recv.success = true) (h2 : recv.truncated = true) :
    getNumericValues send recv = .error .Truncated ∧
    ProtocolError.Truncated ≠ ProtocolError.TransportError ∧
    ∀ d, (Except.error ProtocolError.Truncated : Except ProtocolError String) ≠
      .ok d := by
  refine ⟨?_, by decide, fun d h => Except.noConfusion h⟩
  simp [getNumericValues, hs, h1, h2]

theorem getNumericValues_truncated_witness :
    getNumericValues (fun _ => true) ⟨true, "1.0,2.0", true⟩ =
      .error .Truncated ∧
    ProtocolError.Truncated ≠ ProtocolError.TransportError ∧
    ∀ d, (Except.error ProtocolError.Truncated : Except ProtocolError String) ≠
      .ok d :=
  getNumericValues_truncated (fun _ => true) ⟨true, "1.0,2.0", true⟩ rfl rfl rfl

/-- C9: `setLogLevel(l)` followed by `getLogLevel()` returns `l`, and a
freshly constructed `Interface` has `getLogLevel()` equal to
`LogLevel::Debug`. -/
theorem loglevel_roundtrip_default (i : Interface) (l : LogLevel) :
    (i.setLogLevel l).getLogLevel = l ∧
    Interface.init.getLogLevel = LogLevel.Debug :=
  ⟨rfl, rfl⟩

/-- C10: `setLogLevel` changes only the stored log level and leaves the
USB interface pointer unchanged; `setUSBInterface` changes only the USB
interface pointer and leaves the log level unchanged. -/
theorem interface_frame (i : Interface) (l : LogLevel) (u : Option Nat) :
    (i.setLogLevel l).usb = i.usb ∧
    (i.setLogLevel l).loglevel = l ∧
    (i.setUSBInterface u).loglevel = i.loglevel ∧
    (i.setUSBInterface u).usb = u :=
  ⟨rfl, rfl, rfl, rfl⟩

/-- C1: `setStatusFilter(n, c)` with `c` one of the four transition
tokens succeeds (given the transport accepts the command) and stores
that token for `n`; with any other `c` it fails with `InvalidArgument`
before any transmission is attempted and leaves the state unchanged. -/
theorem setStatusFilter_validates (send : String → Bool)
    (st : ConfigurationState) (n c : String) :
    (isValidTransition c = true → send (setStatusFilterCmd n c) = true →
      (setStatusFilter send st n c).result = .ok () ∧
      (setStatusFilter send st n c).state.statusFilter n = some c) ∧
    (isValidTransition c = false →
      (setStatusFilter send st n c).result = .error .InvalidArgument ∧
      (setStatusFilter send st n c).sent = [] ∧
      (setStatusFilter send st n c).state = st) := by
  constructor
  · intro hv hs
    simp [setStatusFilter, hv, transmitSet, hs]
  · intro hv
    simp [setStatusFilter, hv]

theorem setStatusFilter_validates_witness :
    ((setStatusFilter (fun _ => true) ConfigurationState.init "1" "RISE").result =
      .ok () ∧
    (setStatusFilter (fun _ => true) ConfigurationState.init "1"
      "RISE").state.statusFilter "1" = some "RISE") ∧
    ((setStatusFilter (fun _ => true) ConfigurationState.init "1" "XYZ").result =
      .error .InvalidArgument ∧
    (setStatusFilter (fun _ => true) ConfigurationState.init "1" "XYZ").sent =
      [] ∧
    (setStatusFilter (fun _ => true) ConfigurationState.init "1" "XYZ").state =
      ConfigurationState.init) :=
  ⟨(setStatusFilter_validates (fun _ => true) ConfigurationState.init "1"
      "RISE").1 (by decide) rfl,
   (setStatusFilter_validates (fun _ => true) ConfigurationState.init "1"
      "XYZ").2 (by decide)⟩

/-- C2: every configuration setter is write-through: on a failed send
the corresponding in-memory field keeps its pre-call value and the
failure is signalled as `TransportError`; the field takes the new value
exactly when the send succeeded. -/
theorem setters_write_through (send : String → Bool) (st : ConfigurationState)
    (b : Bool) (n c t : String) (f : GPIB.Numeric.Format.enumFormats) :
    (send (setRemoteCmd b) = false →
      (setRemote send st b).state = st ∧
      (setRemote send st b).result = .error .TransportError) ∧
    (send (setRemoteCmd b) = true →
      (setRemote send st b).state = { st with remote := b }) ∧
    (send (setOverlapCmd b) = false →
      (setOverlap send st b).state = st ∧
      (setOverlap send st b).result = .error .TransportError) ∧
    (send (setOverlapCmd b) = true →
      (setOverlap send st b).state = { st with overlap := b }) ∧
    (send (setVerboseCmd b) = false →
      (setVerbose send st b).state = st ∧
      (setVerbose send st b).result = .error .TransportError) ∧
    (send (setVerboseCmd b) = true →
      (setVerbose send st b).state = { st with verbose := b }) ∧
    (send (setHeaderCmd b) = false →
      (setHeader send st b).state = st ∧
      (setHeader send st b).result = .error .TransportError) ∧
    (send (setHeaderCmd b) = true →
      (setHeader send st b).state = { st with header := b }) ∧
    (send (setExtendedEventStatusEnableCmd b) = false →
      (setExtendedEventStatusEnable send st b).state = st ∧
      (setExtendedEventStatusEnable send st b).result =
        .error .TransportError) ∧
    (send (setExtendedEventStatusEnableCmd b) = true →
      (setExtendedEventStatusEnable send st b).state =
        { st with extendedEventStatusEnable := b }) ∧
    (send (setStatusFilterCmd n c) = false →
      (setStatusFilter send st n c).state = st) ∧
    (isValidTransition c = true → send (setStatusFilterCmd n c) = false →
      (setStatusFilter send st n c).result = .error .TransportError) ∧
    (isValidTransition c = true → send (setStatusFilterCmd n c) = true →
      (setStatusFilter send st n c).state.statusFilter n = some c) ∧
    (send (setNumericFormatCmd t) = false →
      (setNumericFormatString send st t).state = st ∧
      (setNumericFormatString send st t).result = .error .TransportError) ∧
    (send (setNumericFormatCmd t) = true →
      (setNumericFormatString send st t).state.numericFormat = some t) ∧
    (send (setNumericFormatCmd (formatToken f)) = false →
      (setNumericFormatEnum send st f).state = st ∧
      (setNumericFormatEnum send st f).result = .error .TransportError) ∧
    (send (setNumericFormatCmd (formatToken f)) = true →
      (setNumericFormatEnum send st f).state.numericFormat =
        some (formatToken f)) := by
  refine ⟨fun h => transmitSet_fail st _ h, fun h => ?_,
          fun h => transmitSet_fail st _ h, fun h => ?_,
          fun h => transmitSet_fail st _ h, fun h => ?_,
          fun h => transmitSet_fail st _ h, fun h => ?_,
          fun h => transmitSet_fail st _ h, fun h => ?_,
          fun h => ?_, fun hv h => ?_, fun hv h => ?_,
          fun h => transmitSet_fail st _ h, fun h => ?_,
          fun h => transmitSet_fail st _ h, fun h => ?_⟩
  · simp [setRemote, transmitSet, h]
  · simp [setOverlap, transmitSet, h]
  · simp [setVerbose, transmitSet, h]
  · simp [setHeader, transmitSet, h]
  · simp [setExtendedEventStatusEnable, transmitSet, h]
  · unfold setStatusFilter
    split
    · exact (transmitSet_fail st _ h).1
    · rfl
  · simp [setStatusFilter, hv, transmitSet, h]
  · simp [setStatusFilter, hv, transmitSet, h]
  · simp [setNumericFormatString, transmitSet, h]
  · simp [setNumericFormatEnum, setNumericFormatString, transmitSet, h]

theorem setters_write_through_witness :
    ((setRemote (fun _ => false) ConfigurationState.init true).state =
      ConfigurationState.init ∧
     (setRemote (fun _ => false) ConfigurationState.init true).result =
      .error .TransportError) ∧
    (setRemote (fun _ => true) ConfigurationState.init true).state =
      { ConfigurationState.init with remote := true } ∧
    ((setOverlap (fun _ => false) ConfigurationState.init true).state =
      ConfigurationState.init ∧
     (setOverlap (fun _ => false) ConfigurationState.init true).result =
      .error .TransportError) ∧
    (setOverlap (fun _ => true) ConfigurationState.init true).state =
      { ConfigurationState.init with overlap := true } ∧
    ((setVerbose (fun _ => false) ConfigurationState.init true).state =
      ConfigurationState.init ∧
     (setVerbose (fun _ => false) ConfigurationState.init true).result =
      .error .TransportError) ∧
    (setVerbose (fun _ => true) ConfigurationState.init true).state =
      { ConfigurationState.init with verbose := true } ∧
    ((setHeader (fun _ => false) ConfigurationState.init true).state =
      ConfigurationState.init ∧
     (setHeader (fun _ => false) ConfigurationState.init true).result =
      .error .TransportError) ∧
    (setHeader (fun _ => true) ConfigurationState.init true).state =
      { ConfigurationState.init with header := true } ∧
    ((setExtendedEventStatusEnable (fun _ => false) ConfigurationState.init
        true).state = ConfigurationState.init ∧
     (setExtendedEventStatusEnable (fun _ => false) ConfigurationState.init
        true).result = .error .TransportError) ∧
    (setExtendedEventStatusEnable (fun _ => true) ConfigurationState.init
        true).state =
      { ConfigurationState.init with extendedEventStatusEnable := true } ∧
    (setStatusFilter (fun _ => false) ConfigurationState.init "1"
        "RISE").state = ConfigurationState.init ∧
    (setStatusFilter (fun _ => false) ConfigurationState.init "1"
        "RISE").result = .error .TransportError ∧
    (setStatusFilter (fun _ => true) ConfigurationState.init "1"
        "RISE").state.statusFilter "1" = some "RISE" ∧
    ((setNumericFormatString (fun _ => false) ConfigurationState.init
        "FLOat").state = ConfigurationState.init ∧
     (setNumericFormatString (fun _ => false) ConfigurationState.init
        "FLOat").result = .error .TransportError) ∧
    (setNumericFormatString (fun _ => true) ConfigurationState.init
        "FLOat").state.numericFormat = some "FLOat" ∧
    ((setNumericFormatEnum (fun _ => false) ConfigurationState.init
        .FORMAT_FLOAT).state = ConfigurationState.init ∧
     (setNumericFormatEnum (fun _ => false) ConfigurationState.init
        .FORMAT_FLOAT).result = .error .TransportError) ∧
    (setNumericFormatEnum (fun _ => true) ConfigurationState.init
        .FORMAT_FLOAT).state.numericFormat = some (formatToken .FORMAT_FLOAT) := by
  have hF := setters_write_through (fun _ => false) ConfigurationState.init
    true "1" "RISE" "FLOat" .FORMAT_FLOAT
  have hT := setters_write_through (fun _ => true) ConfigurationState.init
    true "1" "RISE" "FLOat" .FORMAT_FLOAT
  obtain ⟨a1, a2, a3, a4, a5, a6, a7, a8, a9, a10, a11, a12, a13, a14, a15,
    a16, a17⟩ := hF
  obtain ⟨b1, b2, b3, b4, b5, b6, b7, b8, b9, b10, b11, b12, b13, b14, b15,
    b16, b17⟩ := hT
  exact ⟨a1 rfl, b2 rfl, a3 rfl, b4 rfl, a5 rfl, b6 rfl, a7 rfl, b8 rfl,
    a9 rfl, b10 rfl, a11 rfl, a12 (by decide) rfl, b13 (by decide) rfl,
    a14 rfl, b15 rfl, a16 rfl, b17 rfl⟩

/-- C8: every `connect()` issues `*CLS` and then the set-remote command
in that order; a second `connect()` re-sends the same two-command
sequence again, and (the transport accepting both commands) the
repetition alone never produces an error. -/
theorem connect_protocol_idempotent (send : String → Bool)
    (st : ConfigurationState) (h1 : send GPIB.ClearStatus = true)
    (h2 : send (setRemoteCmd true) = true) :
    (connect send st).sent = [GPIB.ClearStatus, setRemoteCmd true] ∧
    (connect send st).result = .ok () ∧
    (connectTwice send st).sent =
      [GPIB.ClearStatus, setRemoteCmd true,
       GPIB.ClearStatus, setRemoteCmd true] ∧
    (connectTwice send st).result = .ok () := by
  have hc : ∀ s, connect send s =
      ⟨{ s with remote := true }, [GPIB.ClearStatus, setRemoteCmd true],
        .ok ()⟩ := by
    intro s
    simp [connect, clearStatus, h1, setRemote, transmitSet, h2]
  refine ⟨?_, ?_, ?_, ?_⟩ <;> simp [connectTwice, hc]

theorem connect_protocol_idempotent_witness :
    (connect (fun _ => true) ConfigurationState.init).sent =
      [GPIB.ClearStatus, setRemoteCmd true] ∧
    (connect (fun _ => true) ConfigurationState.init).result = .ok () ∧
    (connectTwice (fun _ => true) ConfigurationState.init).sent =
      [GPIB.ClearStatus, setRemoteCmd true,
       GPIB.ClearStatus, setRemoteCmd true] ∧
    (connectTwice (fun _ => true) ConfigurationState.init).result = .ok () :=
  connect_protocol_idempotent (fun _ => true) ConfigurationState.init rfl rfl

end Yokogawa.WT3000
